import Mathlib

/-!
Verification development for the pips-solver repository (Go).

The Go sources live in main.go and model.go.  model.go contains two
revisions of the model; the spec and the line references of the claims
designate the later, region-aware / dual-occupancy revision (the one whose
Restriction carries NumSquaresLeft, whose Check takes a numSquares argument,
whose Assign marks both squares, and whose MoveQueue has Pruned flags and
PruneUselessMoves) as the authoritative one; that revision is embedded here.
main.go additionally reads a NumSquaresAffected field (set once by the
loader to the number of squares of the region, never mutated afterwards),
so the embedded Restriction carries both counters.

Go pointers to shared mutable objects (squares, restrictions, dominoes) are
modelled as indices into three arenas held in a BoardState; Go pointer
equality (s.Restriction == neighbor.Restriction) becomes index equality.
Go int is modelled as Int (no overflow concerns arise: only small additions,
subtractions and comparisons occur).  Go code that panics (out-of-range
slice index, nil dereference) is modelled by an Option result, none standing
for the panic.
-/

/-- RestrictionType of model.go: the five constraint kinds. -/
inductive RestrictionType where
  | none
  | greaterThan
  | lessThan
  | equal
  | sumsTo
deriving DecidableEq, Repr

/-- Restriction of model.go.  RType is the Go field Type (a Lean keyword).
NumSquaresLeft belongs to the authoritative model revision (decremented by
Assign); NumSquaresAffected is the loader-maintained region size read by
pickEmptySquare in main.go. -/
structure Restriction where
  RType : RestrictionType
  Arg : Int
  NumSquaresLeft : Int
  NumSquaresAffected : Int
deriving DecidableEq, Repr

/-- Restriction.Check of model.go (authoritative revision, with the
numSquares argument). -/
def Restriction.Check (r : Restriction) (value : Int) (numSquares : Int) : Bool :=
  match r.RType with
  | RestrictionType.none => true
  | RestrictionType.greaterThan => value > r.Arg
  | RestrictionType.lessThan => value < r.Arg
  | RestrictionType.equal => r.Arg == -1 || value == r.Arg
  | RestrictionType.sumsTo =>
    if r.Arg - value < 0 then false
    else if r.NumSquaresLeft == numSquares && value != r.Arg then false
    else true

/-- Reference semantics of Check exactly as claim C3 words it, written
independently of the source for comparison. -/
def Restriction.CheckClaimed (r : Restriction) (value : Int) (numSquares : Int) : Bool :=
  match r.RType with
  | RestrictionType.none => true
  | RestrictionType.greaterThan => decide (value > r.Arg)
  | RestrictionType.lessThan => decide (value < r.Arg)
  | RestrictionType.equal => decide (r.Arg = -1 ∨ value = r.Arg)
  | RestrictionType.sumsTo =>
    if r.Arg - value < 0 then false
    else if r.NumSquaresLeft = numSquares ∧ value ≠ r.Arg then false
    else true

/-- Domino of model.go.  The private rotation counter is a Go int; its value
mod 4 (Go truncated remainder) is the facing. -/
structure Domino where
  Square1Value : Int
  Square2Value : Int
  IsAssigned : Bool
  rotation : Int
deriving DecidableEq, Repr

/-- Domino.GetRotation of model.go: Go % is the truncated remainder, Int.tmod. -/
def Domino.GetRotation (d : Domino) : Int :=
  d.rotation.tmod 4

/-- Domino.Rotate90DegreesClockwise of model.go. -/
def Domino.Rotate90DegreesClockwise (d : Domino) : Domino :=
  { d with rotation := d.rotation + 1 }

/-- Domino.Rotate90DegreesCounterClockwise of model.go, the undo action of
the clockwise rotation. -/
def Domino.Rotate90DegreesCounterClockwise (d : Domino) : Domino :=
  { d with rotation := d.rotation - 1 }

/-- Domino.Swap of model.go: exchange the two side values. -/
def Domino.Swap (d : Domino) : Domino :=
  { d with Square1Value := d.Square2Value, Square2Value := d.Square1Value }

/-- GridSquare of model.go.  DominoAssigned is the pointer to the occupying
domino (arena index); RestrictionId is the Go field Restriction, a pointer
to the (possibly shared) Restriction object, modelled as an arena index.
Every active square is given a restriction object by the loader (default
kind none), so the Go pointer is never nil and the field is not optional.
The unused PipValue field is kept for fidelity. -/
structure GridSquare where
  X : Int
  Y : Int
  DominoAssigned : Option Nat
  PipValue : Int
  RestrictionId : Nat
  TopNeighbor : Option Nat
  BottomNeighbor : Option Nat
  LeftNeighbor : Option Nat
  RightNeighbor : Option Nat
deriving DecidableEq, Repr

/-- The mutable solver state: the three arenas of shared mutable objects. -/
structure BoardState where
  squares : Nat → GridSquare
  restrictions : Nat → Restriction
  dominoes : Nat → Domino

/-- Replace the square stored at index i. -/
def BoardState.setSquare (st : BoardState) (i : Nat) (s : GridSquare) : BoardState :=
  { st with squares := Function.update st.squares i s }

/-- Replace the restriction stored at index i. -/
def BoardState.setRestriction (st : BoardState) (i : Nat) (r : Restriction) : BoardState :=
  { st with restrictions := Function.update st.restrictions i r }

/-- Replace the domino stored at index i. -/
def BoardState.setDomino (st : BoardState) (i : Nat) (d : Domino) : BoardState :=
  { st with dominoes := Function.update st.dominoes i d }

/-- The Go field store s.DominoAssigned = v (s a square pointer). -/
def BoardState.setOccupied (st : BoardState) (i : Nat) (v : Option Nat) : BoardState :=
  st.setSquare i { st.squares i with DominoAssigned := v }

/-- The Go field store r.Arg = v (r a restriction pointer). -/
def BoardState.bindArg (st : BoardState) (i : Nat) (v : Int) : BoardState :=
  st.setRestriction i { st.restrictions i with Arg := v }

/-- The Go compound store r.Arg += dv; r.NumSquaresLeft += dn (the source
writes -= v and -- or += v and ++, i.e. dv is the signed delta). -/
def BoardState.addSum (st : BoardState) (i : Nat) (dv dn : Int) : BoardState :=
  st.setRestriction i
    { st.restrictions i with
      Arg := (st.restrictions i).Arg + dv,
      NumSquaresLeft := (st.restrictions i).NumSquaresLeft + dn }

/-- The Go field store d.IsAssigned = b (d a domino pointer). -/
def BoardState.setAssignedFlag (st : BoardState) (i : Nat) (b : Bool) : BoardState :=
  st.setDomino i { st.dominoes i with IsAssigned := b }

/-- Undo record: the data captured by the Go undo closures.  The rotate and
swap undos capture only the domino pointer; the assign undo captures the two
square pointers, the domino pointer and the two wasBlank flags; everything
else (current side values, restriction types) is read from the live state
when the undo runs, exactly as the Go closures do. -/
inductive UndoRecord where
  | rotateUndo (dId : Nat)
  | swapUndo (dId : Nat)
  | assignUndo (sId nId dId : Nat) (wasBlank neighborWasBlank : Bool)
deriving DecidableEq, Repr

/-- Domino.Assign of model.go (authoritative revision): commit the placement
of domino dId onto square sId and its neighbor nId, updating occupancy, the
equal bindings, the sum running state and the assigned flag, and return the
undo record the Go closure would capture.  The neighbor equal-binding test
re-reads the restriction after the first binding, so a shared equal
restriction is bound only once. -/
def Domino.Assign (st : BoardState) (dId sId nId : Nat) : BoardState × UndoRecord :=
  let d := st.dominoes dId
  let rsId := (st.squares sId).RestrictionId
  let rnId := (st.squares nId).RestrictionId
  let st2 := (st.setOccupied sId (some dId)).setOccupied nId (some dId)
  let rs := st2.restrictions rsId
  let wasBlank := rs.RType = RestrictionType.equal ∧ rs.Arg = -1
  let st3 := if wasBlank then st2.bindArg rsId d.Square1Value else st2
  let rn := st3.restrictions rnId
  let neighborWasBlank := rn.RType = RestrictionType.equal ∧ rn.Arg = -1
  let st4 := if neighborWasBlank then st3.bindArg rnId d.Square2Value else st3
  let st5 :=
    if (st4.restrictions rsId).RType = RestrictionType.sumsTo then
      st4.addSum rsId (-d.Square1Value) (-1)
    else st4
  let st6 :=
    if (st5.restrictions rnId).RType = RestrictionType.sumsTo then
      st5.addSum rnId (-d.Square2Value) (-1)
    else st5
  let st7 := st6.setAssignedFlag dId true
  (st7, UndoRecord.assignUndo sId nId dId (decide wasBlank) (decide neighborWasBlank))

/-- Execute a stored undo action on the current state, exactly in the order
of the corresponding Go closure.  The assign undo reads the current side
values of the domino (the closure dereferences d at call time). -/
def applyUndo (st : BoardState) (u : UndoRecord) : BoardState :=
  match u with
  | UndoRecord.rotateUndo dId =>
    st.setDomino dId ((st.dominoes dId).Rotate90DegreesCounterClockwise)
  | UndoRecord.swapUndo dId =>
    st.setDomino dId ((st.dominoes dId).Swap)
  | UndoRecord.assignUndo sId nId dId wasBlank neighborWasBlank =>
    let rsId := (st.squares sId).RestrictionId
    let rnId := (st.squares nId).RestrictionId
    let st3 := ((st.setOccupied sId none).setAssignedFlag dId false).setOccupied nId none
    let st4 := if wasBlank then st3.bindArg rsId (-1) else st3
    let st5 := if neighborWasBlank then st4.bindArg rnId (-1) else st4
    let d := st5.dominoes dId
    let st6 :=
      if (st5.restrictions rsId).RType = RestrictionType.sumsTo then
        st5.addSum rsId d.Square1Value 1
      else st5
    let st7 :=
      if (st6.restrictions rnId).RType = RestrictionType.sumsTo then
        st6.addSum rnId d.Square2Value 1
      else st6
    st7

/-- The neighbor chosen by Domino.TryAssign from the current rotation:
right, bottom, left, top for facings 0..3.  A Go switch without default
leaves the neighbor nil for any other facing (possible, since GetRotation is
negative for a negative counter). -/
def neighborForRotation (st : BoardState) (dId sId : Nat) : Option Nat :=
  let d := st.dominoes dId
  let s := st.squares sId
  if d.GetRotation = 0 then s.RightNeighbor
  else if d.GetRotation = 1 then s.BottomNeighbor
  else if d.GetRotation = 2 then s.LeftNeighbor
  else if d.GetRotation = 3 then s.TopNeighbor
  else none

/-- Domino.TryAssign of model.go (authoritative revision).  Returns none on
failure, performing no mutation; on success returns the mutated state and
the undo record.  The same-restriction equal branch keeps the source's
self-comparison of Square1Value with itself (an evident typo for
Square2Value, see claim C4). -/
def Domino.TryAssign (st : BoardState) (dId sId : Nat) : Option (BoardState × UndoRecord) :=
  let d := st.dominoes dId
  match neighborForRotation st dId sId with
  | none => none
  | some nId =>
    let s := st.squares sId
    let n := st.squares nId
    if n.DominoAssigned ≠ none then none
    else if s.RestrictionId = n.RestrictionId then
      let r := st.restrictions s.RestrictionId
      if r.RType = RestrictionType.equal ∧ d.Square1Value ≠ d.Square1Value then none
      else if r.RType = RestrictionType.equal ∧ ¬(r.Check d.Square1Value 1 = true) then none
      else if r.RType = RestrictionType.sumsTo ∧
          ¬(r.Check (d.Square1Value + d.Square2Value) 2 = true) then none
      else some (Domino.Assign st dId sId nId)
    else
      if ¬((st.restrictions n.RestrictionId).Check d.Square2Value 1 = true) then none
      else some (Domino.Assign st dId sId nId)

/-- MoveType of model.go. -/
inductive MoveType where
  | rotate
  | swap
  | assign
deriving DecidableEq, Repr

/-- The fields of a Go Move literal as the search constructs it (Label is a
display-only format string and is omitted; UndoFunc is nil until TryPush
fills it in, so it is not part of the request). -/
structure MoveSpec where
  Domino : Nat
  GridSquare : Nat
  MoveTy : MoveType
deriving DecidableEq, Repr

/-- A Move as it sits in the queue after a successful TryPush: the request
fields plus the stored undo action and the Pruned display flag. -/
structure Move where
  Domino : Nat
  GridSquare : Nat
  MoveTy : MoveType
  Undo : UndoRecord
  Pruned : Bool
deriving DecidableEq, Repr

/-- MoveQueue of model.go: a slice used as a stack. -/
abbrev MoveQueue := List Move

/-- MoveQueue.TryPush of model.go: rotate and swap always mutate the domino,
record their undo and append; assign delegates to Domino.TryAssign and
appends only on success, leaving queue and state untouched otherwise. -/
def MoveQueue.TryPush (st : BoardState) (q : MoveQueue) (m : MoveSpec) :
    Bool × BoardState × MoveQueue :=
  match m.MoveTy with
  | MoveType.rotate =>
    (true,
      st.setDomino m.Domino ((st.dominoes m.Domino).Rotate90DegreesClockwise),
      (q ++ [{ Domino := m.Domino, GridSquare := m.GridSquare, MoveTy := m.MoveTy,
               Undo := UndoRecord.rotateUndo m.Domino, Pruned := false }] : List Move))
  | MoveType.swap =>
    (true,
      st.setDomino m.Domino ((st.dominoes m.Domino).Swap),
      (q ++ [{ Domino := m.Domino, GridSquare := m.GridSquare, MoveTy := m.MoveTy,
               Undo := UndoRecord.swapUndo m.Domino, Pruned := false }] : List Move))
  | MoveType.assign =>
    match Domino.TryAssign st m.Domino m.GridSquare with
    | none => (false, st, q)
    | some (st1, u) =>
      (true, st1,
        (q ++ [{ Domino := m.Domino, GridSquare := m.GridSquare, MoveTy := m.MoveTy,
                 Undo := u, Pruned := false }] : List Move))

/-- MoveQueue.Pop of model.go: on an empty queue return nil and touch
nothing; otherwise remove the last entry, run its stored undo and return it. -/
def MoveQueue.Pop (st : BoardState) (q : MoveQueue) :
    Option Move × BoardState × MoveQueue :=
  match (q : List Move).getLast? with
  | none => (none, st, q)
  | some m => (some m, applyUndo st m.Undo, ((q : List Move).dropLast : List Move))

/-- A domino at the initial facing, used as concrete input below. -/
def cexDomino : Domino :=
  { Square1Value := 1, Square2Value := 2, IsAssigned := false, rotation := 0 }

/-- A one-element queue holding a pushed rotate move, used as concrete input. -/
def oneRotateQueue : MoveQueue :=
  [{ Domino := 0, GridSquare := 0, MoveTy := MoveType.rotate,
     Undo := UndoRecord.rotateUndo 0, Pruned := false }]

/-- An inactive default square (no occupant, restriction slot 0, no
neighbors), used to fill arena positions that no concrete input touches. -/
def fillerSquare : GridSquare :=
  { X := 0, Y := 0, DominoAssigned := none, PipValue := 0, RestrictionId := 0,
    TopNeighbor := none, BottomNeighbor := none, LeftNeighbor := none,
    RightNeighbor := none }

/-- A default restriction of kind none. -/
def fillerRestriction : Restriction :=
  { RType := RestrictionType.none, Arg := 0, NumSquaresLeft := 0,
    NumSquaresAffected := 0 }

/-- A default unassigned domino. -/
def fillerDomino : Domino :=
  { Square1Value := 0, Square2Value := 0, IsAssigned := false, rotation := 0 }

/-- A concrete board whose arenas hold default objects everywhere. -/
def blandBoard : BoardState :=
  { squares := fun _ => fillerSquare,
    restrictions := fun _ => fillerRestriction,
    dominoes := fun _ => fillerDomino }

/-- Two horizontally adjacent squares sharing one unbound equal restriction
(arena slot 0), with a 3-5 domino in slot 0: the concrete input refuting
claim C4. -/
def sharedEqBoard : BoardState :=
  { squares := fun i =>
      if i = 0 then
        { X := 0, Y := 0, DominoAssigned := none, PipValue := 0,
          RestrictionId := 0, TopNeighbor := none, BottomNeighbor := none,
          LeftNeighbor := none, RightNeighbor := some 1 }
      else if i = 1 then
        { X := 1, Y := 0, DominoAssigned := none, PipValue := 0,
          RestrictionId := 0, TopNeighbor := none, BottomNeighbor := none,
          LeftNeighbor := some 0, RightNeighbor := none }
      else fillerSquare,
    restrictions := fun i =>
      if i = 0 then
        { RType := RestrictionType.equal, Arg := -1, NumSquaresLeft := 0,
          NumSquaresAffected := 2 }
      else fillerRestriction,
    dominoes := fun i =>
      if i = 0 then
        { Square1Value := 3, Square2Value := 5, IsAssigned := false, rotation := 0 }
      else fillerDomino }

abbrev updArg (R : Nat → Restriction) (i : Nat) (v : Int) : Nat → Restriction :=
  Function.update R i { R i with Arg := v }

abbrev updSum (R : Nat → Restriction) (i : Nat) (a b : Int) : Nat → Restriction :=
  Function.update R i
    { R i with Arg := (R i).Arg + a, NumSquaresLeft := (R i).NumSquaresLeft + b }

abbrev eqBlank (R : Nat → Restriction) (i : Nat) : Prop :=
  (R i).RType = RestrictionType.equal ∧ (R i).Arg = -1

def assignR (R : Nat → Restriction) (rsId rnId : Nat) (S1 S2 : Int) : Nat → Restriction :=
  let R3 := if eqBlank R rsId then updArg R rsId S1 else R
  let R4 := if eqBlank R3 rnId then updArg R3 rnId S2 else R3
  let R5 := if (R4 rsId).RType = RestrictionType.sumsTo then updSum R4 rsId (-S1) (-1) else R4
  let R6 := if (R5 rnId).RType = RestrictionType.sumsTo then updSum R5 rnId (-S2) (-1) else R5
  R6

def undoR (R : Nat → Restriction) (rsId rnId : Nat) (S1 S2 : Int) (wb nwb : Bool) : Nat → Restriction :=
  let R4 := if wb then updArg R rsId (-1) else R
  let R5 := if nwb then updArg R4 rnId (-1) else R4
  let R6 := if (R5 rsId).RType = RestrictionType.sumsTo then updSum R5 rsId S1 1 else R5
  let R7 := if (R6 rnId).RType = RestrictionType.sumsTo then updSum R6 rnId S2 1 else R6
  R7

/-- The assign move request used as concrete input for the C1 witness. -/
def c1Move : MoveSpec := { Domino := 0, GridSquare := 0, MoveTy := MoveType.assign }

/-- The result of pushing that assign move on the shared-equal board. -/
def c1Push : Bool × BoardState × MoveQueue := MoveQueue.TryPush sharedEqBoard [] c1Move

/-- The blankSquares slice built at the top of pickEmptySquare in main.go:
all squares of the grid (row-major scan), kept when unoccupied.  The Go
code also requires Restriction != nil, which always holds because the
loader gives every built square a restriction object. -/
def blankSquaresList (grid : List (List (Option Nat))) (st : BoardState) : List Nat :=
  (grid.join.filterMap id).filter
    (fun sid => (st.squares sid).DominoAssigned == none)

/-- The first priority test of pickEmptySquare: a sum restriction whose
NumSquaresAffected (static region size) is 1. -/
def isSumOne (st : BoardState) (sid : Nat) : Bool :=
  decide ((st.restrictions (st.squares sid).RestrictionId).RType = RestrictionType.sumsTo) &&
  decide ((st.restrictions (st.squares sid).RestrictionId).NumSquaresAffected = 1)

/-- The second priority test: an equal restriction already bound (Arg not -1). -/
def isBoundEqual (st : BoardState) (sid : Nat) : Bool :=
  decide ((st.restrictions (st.squares sid).RestrictionId).RType = RestrictionType.equal) &&
  decide ((st.restrictions (st.squares sid).RestrictionId).Arg ≠ -1)

/-- The third priority test: a greater-than or less-than restriction. -/
def isGtLt (st : BoardState) (sid : Nat) : Bool :=
  decide ((st.restrictions (st.squares sid).RestrictionId).RType = RestrictionType.greaterThan) ||
  decide ((st.restrictions (st.squares sid).RestrictionId).RType = RestrictionType.lessThan)

/-- pickEmptySquare of main.go.  Each Go for-loop returning its first match
is a List.find?; the final blankSquares[0] panics on an empty slice,
modelled by head? returning none. -/
def pickEmptySquare (grid : List (List (Option Nat))) (st : BoardState) : Option Nat :=
  let blankSquares := blankSquaresList grid st
  match blankSquares.find? (isSumOne st) with
  | some s => some s
  | none =>
    match blankSquares.find? (isBoundEqual st) with
    | some s => some s
    | none =>
      match blankSquares.find? (isGtLt st) with
      | some s => some s
      | none => blankSquares.head?

/-- The priority class of an open square under the (amended) heuristic. -/
def heuristicClass (st : BoardState) (sid : Nat) : Nat :=
  if isSumOne st sid then 1
  else if isBoundEqual st sid then 2
  else if isGtLt st sid then 3
  else 4

/-- Number of open squares of the grid whose restriction is arena slot rid:
the notion of remaining squares of a region that the original claim C6
refers to. -/
def openSquaresInRegion (grid : List (List (Option Nat))) (st : BoardState) (rid : Nat) : Nat :=
  ((grid.join.filterMap id).filter
    (fun sid => (st.squares sid).DominoAssigned == none &&
      (st.squares sid).RestrictionId == rid)).length

/-- A one-row grid of three squares used to refute the original C6: squares
0 and 1 share a two-square sum region (square 0 already covered, so exactly
one remains); square 2 carries an already-bound equal restriction. -/
def c6Grid : List (List (Option Nat)) := [[some 0, some 1, some 2]]

/-- Square 0 of the counterexample grid: covered, in the sum region. -/
def c6Sq0 : GridSquare :=
  { fillerSquare with
    X := 0, DominoAssigned := some 0, RestrictionId := 0, RightNeighbor := some 1 }

/-- Square 1: open, the single remaining square of the sum region. -/
def c6Sq1 : GridSquare :=
  { fillerSquare with
    X := 1, RestrictionId := 0, LeftNeighbor := some 0, RightNeighbor := some 2 }

/-- Square 2: open, carrying the bound equal restriction. -/
def c6Sq2 : GridSquare :=
  { fillerSquare with X := 2, RestrictionId := 1, LeftNeighbor := some 1 }

/-- The two-square sum region, one square already covered. -/
def c6Rest0 : Restriction :=
  { RType := RestrictionType.sumsTo, Arg := 4, NumSquaresLeft := 0,
    NumSquaresAffected := 2 }

/-- The bound equal restriction. -/
def c6Rest1 : Restriction :=
  { RType := RestrictionType.equal, Arg := 3, NumSquaresLeft := 0,
    NumSquaresAffected := 1 }

/-- The board for the C6 counterexample. -/
def c6Board : BoardState :=
  { squares := fun i => if i = 0 then c6Sq0 else if i = 1 then c6Sq1 else
      if i = 2 then c6Sq2 else fillerSquare,
    restrictions := fun i => if i = 0 then c6Rest0 else if i = 1 then c6Rest1 else
      fillerRestriction,
    dominoes := fun i =>
      if i = 0 then { Square1Value := 3, Square2Value := 1, IsAssigned := true, rotation := 0 }
      else fillerDomino }

/-- The inner marking loop of PruneUselessMoves: set Pruned on entries
a..b, as the Go for j loop does. -/
def markPruned (q : List Move) (a b : Nat) : List Move :=
  q.mapIdx (fun j m => if a ≤ j ∧ j ≤ b then { m with Pruned := true } else m)

/-- The main loop of MoveQueue.PruneUselessMoves, i the loop counter and
fri the current firstRotateIndex (the Go firstRotateMove is always the
entry at fri, whose Domino field never changes, so tracking the index is
equivalent to tracking the pointer).  The fuel argument only bounds the
loop, which advances i by one each iteration; out-of-range accesses of
q[i+1] (a Go panic) yield none. -/
def pruneLoop (q : List Move) (i fri : Nat) (fuel : Nat) : Option (List Move) :=
  match fuel with
  | 0 => none
  | fuel + 1 =>
    if h : i < q.length then
      let mi := q.get ⟨i, h⟩
      if mi.MoveTy = MoveType.rotate then
        match q.get? fri with
        | none => none
        | some mf =>
          if mf.Domino ≠ mi.Domino then
            pruneLoop q (i + 1) i fuel
          else if i - fri = 3 then
            match q.get? (i + 1) with
            | none => none
            | some mnext =>
              if mnext.MoveTy = MoveType.assign ∧ mnext.Domino = mf.Domino then
                pruneLoop q (i + 1) fri fuel
              else
                pruneLoop (markPruned q fri i) (i + 1) (i + 1) fuel
          else pruneLoop q (i + 1) fri fuel
      else pruneLoop q (i + 1) fri fuel
    else some q

/-- MoveQueue.PruneUselessMoves of model.go.  The Go code reads q[0] before
the loop, so an empty queue panics (none); the loop runs i from 1 while
i < len(q), and markPruned keeps the length unchanged, so fuel = length
always suffices. -/
def MoveQueue.PruneUselessMoves (q : MoveQueue) : Option MoveQueue :=
  match q with
  | [] => none
  | _ :: _ => pruneLoop q 1 0 q.length

/-- A rotate move of domino 0, as stored in the queue. -/
def rotMoveA : Move :=
  { Domino := 0, GridSquare := 0, MoveTy := MoveType.rotate,
    Undo := UndoRecord.rotateUndo 0, Pruned := false }

/-- A swap move of domino 1, as stored in the queue. -/
def swapMoveB : Move :=
  { Domino := 1, GridSquare := 0, MoveTy := MoveType.swap,
    Undo := UndoRecord.swapUndo 1, Pruned := false }

/-- A log that is exactly four consecutive rotates of one domino. -/
def fourRotatesQueue : MoveQueue := [rotMoveA, rotMoveA, rotMoveA, rotMoveA]

/-- A log whose rotates of domino 0 are interleaved with swaps of domino 1,
containing no four consecutive rotates. -/
def interleavedQueue : MoveQueue :=
  [rotMoveA, swapMoveB, rotMoveA, rotMoveA, rotMoveA, swapMoveB]

/-- DominoCandidate of model.go. -/
structure DominoCandidate where
  Domino : Nat
  isLeftMatch : Bool
  isRightMatch : Bool
deriving DecidableEq, Repr

/-- DominoSet of model.go: the ordered slice of domino pointers (arena ids);
built once at parse time and never modified afterwards. -/
abbrev DominoSet := List Nat

/-- DominoSet.FindAvailableCandidates of model.go (authoritative revision,
per-value Check with numSquares 1): every unassigned domino with at least
one side matching the square's restriction, annotated with the matching
sides, in set order. -/
def DominoSet.FindAvailableCandidates (ds : DominoSet) (st : BoardState) (sqId : Nat) :
    List DominoCandidate :=
  ds.filterMap (fun dId =>
    let d := st.dominoes dId
    if d.IsAssigned then none
    else
      let r := st.restrictions (st.squares sqId).RestrictionId
      let leftMatch := r.Check d.Square1Value 1
      let rightMatch := r.Check d.Square2Value 1
      if !leftMatch && !rightMatch then none
      else some { Domino := dId, isLeftMatch := leftMatch, isRightMatch := rightMatch })

/-- DominoSet.HasUnassigned of model.go (defined in the source but never
called by main.go). -/
def DominoSet.HasUnassigned (ds : DominoSet) (st : BoardState) : Bool :=
  ds.any (fun dId => !(st.dominoes dId).IsAssigned)

/-- Pop the queue n times: the effect of the n deferred
pop-on-failure closures of one makeNextMove invocation running at exit. -/
def popN (st : BoardState) (q : MoveQueue) : Nat → BoardState × MoveQueue
  | 0 => (st, q)
  | n + 1 =>
    let p := MoveQueue.Pop st q
    popN p.2.1 p.2.2 n

/-- Result of one phase of the search: panic models a Go runtime panic
(out-of-range index in pickEmptySquare), done a return from makeNextMove,
advance the fall-through from the orientation loop back into the candidate
loop carrying the accumulated deferred-pop count. -/
inductive SearchOut where
  | panic
  | done (success : Bool) (st : BoardState) (q : MoveQueue)
  | advance (st : BoardState) (q : MoveQueue) (defers : Nat)

/-- The three phases of makeNextMove in main.go: the function entry, the
for-candidates loop, and the numIterations orientation loop. -/
inductive SearchReq where
  | mkMove (st : BoardState) (q : MoveQueue) (sqId : Nat)
  | candLoop (sqId : Nat) (cands : List DominoCandidate) (st : BoardState)
      (q : MoveQueue) (defers : Nat)
  | iterLoop (sqId dId : Nat) (iters : Nat) (st : BoardState) (q : MoveQueue)
      (defers : Nat)

/-- The search engine of main.go (makeNextMove), written as one
fuel-indexed step function so that the mutual recursion of the three
phases is structural.  Each phase mirrors the Go code line by line:
candidate enumeration, the halving of numIterations by the match flags,
the unconditional swap push (with its deferred pop) when the left side
does not match, the assign attempt, the recursion through a fresh
pickEmptySquare (whose panic propagates), the explicit Pop on a failed
recursion, the unconditional rotate push (with its deferred pop), and the
run of all deferred pops when the invocation returns false.  The success
test of the source is len(dominoes) == 0 on the never-shrinking slice,
i.e. ds.isEmpty. -/
def searchRun (grid : List (List (Option Nat))) (ds : DominoSet) :
    Nat → SearchReq → SearchOut
  | 0, _ => SearchOut.panic
  | fuel + 1, SearchReq.mkMove st q sqId =>
    let candidates := DominoSet.FindAvailableCandidates ds st sqId
    if candidates.isEmpty then
      SearchOut.done ds.isEmpty st q
    else
      searchRun grid ds fuel (SearchReq.candLoop sqId candidates st q 0)
  | fuel + 1, SearchReq.candLoop sqId cands st q defers =>
    match cands with
    | [] =>
      let p := popN st q defers
      SearchOut.done false p.1 p.2
    | c :: rest =>
      let n1 := if !c.isRightMatch then 8 / 2 else 8
      if !c.isLeftMatch then
        let pr := MoveQueue.TryPush st q
          { Domino := c.Domino, GridSquare := sqId, MoveTy := MoveType.swap }
        match searchRun grid ds fuel
            (SearchReq.iterLoop sqId c.Domino (n1 / 2) pr.2.1 pr.2.2 (defers + 1)) with
        | SearchOut.panic => SearchOut.panic
        | SearchOut.done b st2 q2 => SearchOut.done b st2 q2
        | SearchOut.advance st2 q2 defers2 =>
          searchRun grid ds fuel (SearchReq.candLoop sqId rest st2 q2 defers2)
      else
        match searchRun grid ds fuel
            (SearchReq.iterLoop sqId c.Domino n1 st q defers) with
        | SearchOut.panic => SearchOut.panic
        | SearchOut.done b st2 q2 => SearchOut.done b st2 q2
        | SearchOut.advance st2 q2 defers2 =>
          searchRun grid ds fuel (SearchReq.candLoop sqId rest st2 q2 defers2)
  | fuel + 1, SearchReq.iterLoop sqId dId iters st q defers =>
    match iters with
    | 0 => SearchOut.advance st q defers
    | iters + 1 =>
      let pa := MoveQueue.TryPush st q
        { Domino := dId, GridSquare := sqId, MoveTy := MoveType.assign }
      if pa.1 then
        match pickEmptySquare grid pa.2.1 with
        | none => SearchOut.panic
        | some nextSq =>
          match searchRun grid ds fuel (SearchReq.mkMove pa.2.1 pa.2.2 nextSq) with
          | SearchOut.panic => SearchOut.panic
          | SearchOut.advance _ _ _ => SearchOut.panic
          | SearchOut.done true st2 q2 => SearchOut.done true st2 q2
          | SearchOut.done false st2 q2 =>
            let pp := MoveQueue.Pop st2 q2
            let pr := MoveQueue.TryPush pp.2.1 pp.2.2
              { Domino := dId, GridSquare := sqId, MoveTy := MoveType.rotate }
            searchRun grid ds fuel
              (SearchReq.iterLoop sqId dId iters pr.2.1 pr.2.2 (defers + 1))
      else
        let pr := MoveQueue.TryPush pa.2.1 pa.2.2
          { Domino := dId, GridSquare := sqId, MoveTy := MoveType.rotate }
        searchRun grid ds fuel
          (SearchReq.iterLoop sqId dId iters pr.2.1 pr.2.2 (defers + 1))

/-- makeNextMove of main.go: run the entry phase; none is a Go panic (or
fuel exhaustion, which a large enough fuel rules out on concrete inputs). -/
def makeNextMove (fuel : Nat) (grid : List (List (Option Nat))) (ds : DominoSet)
    (st : BoardState) (q : MoveQueue) (sqId : Nat) :
    Option (Bool × BoardState × MoveQueue) :=
  match searchRun grid ds fuel (SearchReq.mkMove st q sqId) with
  | SearchOut.panic => none
  | SearchOut.advance _ _ _ => none
  | SearchOut.done b st2 q2 => some (b, st2, q2)

/-- The 1-row, 2-square grid of the C2 scenario. -/
def c2Grid : List (List (Option Nat)) := [[some 0, some 1]]

/-- The left square, right square adjacent, both unconstrained. -/
def c2Sq0 : GridSquare :=
  { fillerSquare with
    X := 0, RestrictionId := 0, RightNeighbor := some 1 }

/-- The right square. -/
def c2Sq1 : GridSquare :=
  { fillerSquare with
    X := 1, RestrictionId := 1, LeftNeighbor := some 0 }

/-- The board of the C2 scenario: both squares open, one unassigned 3-3
domino. -/
def c2Board : BoardState :=
  { squares := fun i => if i = 0 then c2Sq0 else if i = 1 then c2Sq1 else fillerSquare,
    restrictions := fun _ => fillerRestriction,
    dominoes := fun i =>
      if i = 0 then { Square1Value := 3, Square2Value := 3, IsAssigned := false, rotation := 0 }
      else fillerDomino }

/-- The single-domino set of the C2 scenario. -/
def c2Ds : DominoSet := [0]

/-- The assign move that solves the C2 puzzle. -/
def c2AssignMove : MoveSpec :=
  { Domino := 0, GridSquare := 0, MoveTy := MoveType.assign }

/-- C3: Restriction.Check agrees with the reference semantics stated by the
claim: true for kind none; value > Arg for greater-than; value < Arg for
less-than; for equal, true iff the binding is unset (sentinel -1) or the
value equals the bound Arg; for sum-to, false if remaining Arg minus value
is negative, false if NumSquaresLeft equals numSquares and value differs
from the remaining Arg, and true otherwise. -/
theorem check_matches_claimed_semantics (r : Restriction) (value numSquares : Int) :
    r.Check value numSquares = r.CheckClaimed value numSquares := by
  unfold Restriction.Check Restriction.CheckClaimed
  cases r.RType
  case equal => by_cases h1 : r.Arg = -1 <;> by_cases h2 : value = r.Arg <;> simp [h1, h2]
  all_goals simp [decide_eq_decide]

/-- C7 counterexample: starting from rotation counter 0, a single
counter-clockwise rotation makes GetRotation return -1 (Go % truncates
toward zero), which is outside 0..3, refuting the claim for arbitrary
rotation sequences. -/
theorem getRotation_leaves_range :
    (cexDomino.Rotate90DegreesCounterClockwise).GetRotation = -1 ∧
    ¬(0 ≤ (cexDomino.Rotate90DegreesCounterClockwise).GetRotation ∧
      (cexDomino.Rotate90DegreesCounterClockwise).GetRotation ≤ 3) := by
  decide

/-- C7 (amended): whenever the rotation counter is non-negative (as in every
state the solver reaches, where the counter-clockwise rotation is only ever
invoked to undo a prior clockwise one), GetRotation lies in 0..3; and the
clockwise and counter-clockwise rotations are mutually inverse on the whole
domino, hence on the observable facing. -/
theorem getRotation_range_and_inverse (d : Domino) (h : 0 ≤ d.rotation) :
    (0 ≤ d.GetRotation ∧ d.GetRotation ≤ 3) ∧
    d.Rotate90DegreesClockwise.Rotate90DegreesCounterClockwise = d ∧
    d.Rotate90DegreesCounterClockwise.Rotate90DegreesClockwise = d := by
  refine ⟨⟨?_, ?_⟩, ?_, ?_⟩
  · exact Int.tmod_nonneg 4 h
  · have h4 : d.rotation.tmod 4 < 4 := Int.tmod_lt_of_pos d.rotation (by norm_num)
    unfold Domino.GetRotation
    omega
  · simp [Domino.Rotate90DegreesClockwise, Domino.Rotate90DegreesCounterClockwise]
  · simp [Domino.Rotate90DegreesClockwise, Domino.Rotate90DegreesCounterClockwise]

/-- C7 witness: the amended theorem applied to a concrete domino with
counter 5 (facing 1). -/
theorem getRotation_range_and_inverse_witness :
    (0 : Int) ≤ (Domino.mk 3 4 false 5).rotation ∧
    ((0 ≤ (Domino.mk 3 4 false 5).GetRotation ∧ (Domino.mk 3 4 false 5).GetRotation ≤ 3) ∧
      (Domino.mk 3 4 false 5).Rotate90DegreesClockwise.Rotate90DegreesCounterClockwise =
        Domino.mk 3 4 false 5 ∧
      (Domino.mk 3 4 false 5).Rotate90DegreesCounterClockwise.Rotate90DegreesClockwise =
        Domino.mk 3 4 false 5) :=
  ⟨by decide, getRotation_range_and_inverse (Domino.mk 3 4 false 5) (by decide)⟩

/-- C10: Pop on an empty Move Log returns nil and leaves the log and the
whole board state untouched; on a non-empty log it removes exactly the last
entry and changes the state only by running that entry's stored inverse. -/
theorem pop_empty_and_last :
    (∀ st : BoardState, MoveQueue.Pop st [] = (none, st, [])) ∧
    (∀ (st : BoardState) (q : MoveQueue) (h : q ≠ []),
      ∃ m : Move, q.getLast? = some m ∧
        MoveQueue.Pop st q = (some m, applyUndo st m.Undo, q.dropLast)) := by
  constructor
  · intro st; rfl
  · intro st q h
    refine ⟨q.getLast h, List.getLast?_eq_getLast q h, ?_⟩
    unfold MoveQueue.Pop
    rw [List.getLast?_eq_getLast q h]

/-- C10 witness: the theorem applied to the concrete one-element queue. -/
theorem pop_empty_and_last_witness :
    ∃ m : Move, oneRotateQueue.getLast? = some m ∧
      MoveQueue.Pop blandBoard oneRotateQueue =
        (some m, applyUndo blandBoard m.Undo, oneRotateQueue.dropLast) :=
  pop_empty_and_last.2 blandBoard oneRotateQueue (by decide)

theorem setSquare_squares (st : BoardState) (i : Nat) (s : GridSquare) :
    (st.setSquare i s).squares = Function.update st.squares i s := rfl

theorem setSquare_restrictions (st : BoardState) (i : Nat) (s : GridSquare) :
    (st.setSquare i s).restrictions = st.restrictions := rfl

theorem setSquare_dominoes (st : BoardState) (i : Nat) (s : GridSquare) :
    (st.setSquare i s).dominoes = st.dominoes := rfl

theorem setRestriction_squares (st : BoardState) (i : Nat) (r : Restriction) :
    (st.setRestriction i r).squares = st.squares := rfl

theorem setRestriction_restrictions (st : BoardState) (i : Nat) (r : Restriction) :
    (st.setRestriction i r).restrictions = Function.update st.restrictions i r := rfl

theorem setRestriction_dominoes (st : BoardState) (i : Nat) (r : Restriction) :
    (st.setRestriction i r).dominoes = st.dominoes := rfl

theorem setDomino_squares (st : BoardState) (i : Nat) (d : Domino) :
    (st.setDomino i d).squares = st.squares := rfl

theorem setDomino_restrictions (st : BoardState) (i : Nat) (d : Domino) :
    (st.setDomino i d).restrictions = st.restrictions := rfl

theorem setDomino_dominoes (st : BoardState) (i : Nat) (d : Domino) :
    (st.setDomino i d).dominoes = Function.update st.dominoes i d := rfl

/-- C4 evidence: on the shared equal region, TryAssign of the 3-5 domino at
square 0 succeeds, binds the region to 3, and still records the domino
(whose second side is 5, not 3) as covering square 1 — the source compares
Square1Value with itself (a typo for Square2Value), so the second half of a
straddling domino is never checked against the binding. -/
theorem tryAssign_accepts_mismatched_straddle :
    ∃ res : BoardState × UndoRecord, Domino.TryAssign sharedEqBoard 0 0 = some res ∧
      (res.1.restrictions 0).Arg = 3 ∧
      (res.1.squares 1).DominoAssigned = some 0 ∧
      (sharedEqBoard.dominoes 0).Square2Value = 5 ∧
      (res.1.dominoes 0).Square2Value = 5 := by
  refine ⟨Domino.Assign sharedEqBoard 0 0 1, rfl, rfl, rfl, rfl, rfl⟩

theorem BoardState.ext2 (a b : BoardState) (h1 : a.squares = b.squares)
    (h2 : a.restrictions = b.restrictions) (h3 : a.dominoes = b.dominoes) : a = b := by
  cases a; cases b; simp_all

theorem setOccupied_restrictions (st : BoardState) (i : Nat) (v : Option Nat) :
    (st.setOccupied i v).restrictions = st.restrictions := rfl

theorem setOccupied_dominoes (st : BoardState) (i : Nat) (v : Option Nat) :
    (st.setOccupied i v).dominoes = st.dominoes := rfl

theorem bindArg_squares (st : BoardState) (i : Nat) (v : Int) :
    (st.bindArg i v).squares = st.squares := rfl

theorem bindArg_dominoes (st : BoardState) (i : Nat) (v : Int) :
    (st.bindArg i v).dominoes = st.dominoes := rfl

theorem addSum_squares (st : BoardState) (i : Nat) (a b : Int) :
    (st.addSum i a b).squares = st.squares := rfl

theorem addSum_dominoes (st : BoardState) (i : Nat) (a b : Int) :
    (st.addSum i a b).dominoes = st.dominoes := rfl

theorem setAssignedFlag_squares (st : BoardState) (i : Nat) (b : Bool) :
    (st.setAssignedFlag i b).squares = st.squares := rfl

theorem setAssignedFlag_restrictions (st : BoardState) (i : Nat) (b : Bool) :
    (st.setAssignedFlag i b).restrictions = st.restrictions := rfl

theorem setOccupied_squares_apply (st : BoardState) (i : Nat) (v : Option Nat) (j : Nat) :
    (st.setOccupied i v).squares j =
      if j = i then { st.squares j with DominoAssigned := v } else st.squares j := by
  unfold BoardState.setOccupied BoardState.setSquare
  by_cases h : j = i
  · subst h; simp [Function.update_same]
  · simp [Function.update_noteq h, h]

theorem bindArg_restrictions_apply (st : BoardState) (i : Nat) (v : Int) (j : Nat) :
    (st.bindArg i v).restrictions j =
      if j = i then { st.restrictions j with Arg := v } else st.restrictions j := by
  unfold BoardState.bindArg BoardState.setRestriction
  by_cases h : j = i
  · subst h; simp [Function.update_same]
  · simp [Function.update_noteq h, h]

theorem addSum_restrictions_apply (st : BoardState) (i : Nat) (a b : Int) (j : Nat) :
    (st.addSum i a b).restrictions j =
      if j = i then
        { st.restrictions j with
          Arg := (st.restrictions j).Arg + a,
          NumSquaresLeft := (st.restrictions j).NumSquaresLeft + b }
      else st.restrictions j := by
  unfold BoardState.addSum BoardState.setRestriction
  by_cases h : j = i
  · subst h; simp [Function.update_same]
  · simp [Function.update_noteq h, h]

theorem setAssignedFlag_dominoes_apply (st : BoardState) (i : Nat) (b : Bool) (j : Nat) :
    (st.setAssignedFlag i b).dominoes j =
      if j = i then { st.dominoes j with IsAssigned := b } else st.dominoes j := by
  unfold BoardState.setAssignedFlag BoardState.setDomino
  by_cases h : j = i
  · subst h; simp [Function.update_same]
  · simp [Function.update_noteq h, h]

theorem clearOccupied (s : GridSquare) (h : s.DominoAssigned = none) :
    { s with DominoAssigned := none } = s := by
  cases s; simp_all

theorem clearAssigned (d : Domino) (h : d.IsAssigned = false) :
    { d with IsAssigned := false } = d := by
  cases d; simp_all

theorem Restriction.fieldExtR (a b : Restriction) (h1 : a.RType = b.RType) (h2 : a.Arg = b.Arg)
    (h3 : a.NumSquaresLeft = b.NumSquaresLeft)
    (h4 : a.NumSquaresAffected = b.NumSquaresAffected) : a = b := by
  cases a; cases b; simp_all

theorem ite_apply_r (c : Prop) [Decidable c] (F G : Nat → Restriction) (j : Nat) :
    (if c then F else G) j = if c then F j else G j := by split <;> rfl

theorem ite_RType (c : Prop) [Decidable c] (x y : Restriction) :
    (if c then x else y).RType = if c then x.RType else y.RType := by split <;> rfl

theorem ite_Arg (c : Prop) [Decidable c] (x y : Restriction) :
    (if c then x else y).Arg = if c then x.Arg else y.Arg := by split <;> rfl

theorem ite_NSL (c : Prop) [Decidable c] (x y : Restriction) :
    (if c then x else y).NumSquaresLeft = if c then x.NumSquaresLeft else y.NumSquaresLeft := by
  split <;> rfl

theorem ite_NSA (c : Prop) [Decidable c] (x y : Restriction) :
    (if c then x else y).NumSquaresAffected =
      if c then x.NumSquaresAffected else y.NumSquaresAffected := by split <;> rfl

theorem updArg_RType (R : Nat → Restriction) (i : Nat) (v : Int) (k : Nat) :
    ((updArg R i v) k).RType = (R k).RType := by
  unfold updArg; by_cases h : k = i
  · subst h; simp [Function.update_same]
  · simp [Function.update_noteq h]

theorem updArg_Arg (R : Nat → Restriction) (i : Nat) (v : Int) (k : Nat) :
    ((updArg R i v) k).Arg = if k = i then v else (R k).Arg := by
  unfold updArg; by_cases h : k = i
  · subst h; simp [Function.update_same]
  · simp [Function.update_noteq h, h]

theorem updArg_NSL (R : Nat → Restriction) (i : Nat) (v : Int) (k : Nat) :
    ((updArg R i v) k).NumSquaresLeft = (R k).NumSquaresLeft := by
  unfold updArg; by_cases h : k = i
  · subst h; simp [Function.update_same]
  · simp [Function.update_noteq h]

theorem updArg_NSA (R : Nat → Restriction) (i : Nat) (v : Int) (k : Nat) :
    ((updArg R i v) k).NumSquaresAffected = (R k).NumSquaresAffected := by
  unfold updArg; by_cases h : k = i
  · subst h; simp [Function.update_same]
  · simp [Function.update_noteq h]

theorem updSum_RType (R : Nat → Restriction) (i : Nat) (a b : Int) (k : Nat) :
    ((updSum R i a b) k).RType = (R k).RType := by
  unfold updSum; by_cases h : k = i
  · subst h; simp [Function.update_same]
  · simp [Function.update_noteq h]

theorem updSum_Arg (R : Nat → Restriction) (i : Nat) (a b : Int) (k : Nat) :
    ((updSum R i a b) k).Arg = if k = i then (R k).Arg + a else (R k).Arg := by
  unfold updSum; by_cases h : k = i
  · subst h; simp [Function.update_same]
  · simp [Function.update_noteq h, h]

theorem updSum_NSL (R : Nat → Restriction) (i : Nat) (a b : Int) (k : Nat) :
    ((updSum R i a b) k).NumSquaresLeft =
      if k = i then (R k).NumSquaresLeft + b else (R k).NumSquaresLeft := by
  unfold updSum; by_cases h : k = i
  · subst h; simp [Function.update_same]
  · simp [Function.update_noteq h, h]

theorem updSum_NSA (R : Nat → Restriction) (i : Nat) (a b : Int) (k : Nat) :
    ((updSum R i a b) k).NumSquaresAffected = (R k).NumSquaresAffected := by
  unfold updSum; by_cases h : k = i
  · subst h; simp [Function.update_same]
  · simp [Function.update_noteq h]

set_option maxHeartbeats 2000000 in
theorem undoR_assignR (R : Nat → Restriction) (rsId rnId : Nat) (S1 S2 : Int) :
    undoR (assignR R rsId rnId S1 S2) rsId rnId S1 S2
      (decide (eqBlank R rsId))
      (decide (eqBlank (if eqBlank R rsId then updArg R rsId S1 else R) rnId)) = R := by
  funext j
  apply Restriction.fieldExtR <;>
    simp only [undoR, assignR, eqBlank, ite_apply_r, ite_RType, ite_Arg, ite_NSL, ite_NSA,
      updArg_RType, updArg_Arg, updArg_NSL, updArg_NSA,
      updSum_RType, updSum_Arg, updSum_NSL, updSum_NSA, ite_self,
      decide_eq_true_eq]
  case h.h3 =>
    by_cases hS1 : (R rsId).RType = RestrictionType.sumsTo <;>
      by_cases hS2 : (R rnId).RType = RestrictionType.sumsTo <;>
      by_cases hj1 : j = rsId <;> by_cases hj2 : j = rnId <;>
      simp_all <;> omega
  case h.h2 =>
    by_cases hE : rnId = rsId
    · subst hE
      by_cases hj : j = rnId
      · subst hj
        by_cases hT : (R j).RType = RestrictionType.equal <;>
          by_cases hb : (R j).Arg = -1 <;>
          by_cases hS : (R j).RType = RestrictionType.sumsTo <;>
          simp_all <;> (try intros) <;> (try split_ifs) <;> (try intros) <;> omega
      · simp_all
    · by_cases hj1 : j = rsId
      · subst hj1
        by_cases hT : (R j).RType = RestrictionType.equal <;>
          by_cases hb : (R j).Arg = -1 <;>
          by_cases hS : (R j).RType = RestrictionType.sumsTo <;>
          by_cases hT2 : (R rnId).RType = RestrictionType.equal <;>
          by_cases hb2 : (R rnId).Arg = -1 <;>
          simp_all <;> (try intros) <;> (try split_ifs) <;> (try intros) <;> omega
      · by_cases hj2 : j = rnId
        · subst hj2
          by_cases hT : (R j).RType = RestrictionType.equal <;>
            by_cases hb : (R j).Arg = -1 <;>
            by_cases hS : (R j).RType = RestrictionType.sumsTo <;>
            by_cases hT1 : (R rsId).RType = RestrictionType.equal <;>
            by_cases hb1 : (R rsId).Arg = -1 <;>
            simp_all <;> (try intros) <;> (try split_ifs) <;> (try intros) <;> omega
        · simp_all

theorem bindArg_restrictions_eq (st : BoardState) (i : Nat) (v : Int) :
    (st.bindArg i v).restrictions = updArg st.restrictions i v := rfl

theorem addSum_restrictions_eq (st : BoardState) (i : Nat) (a b : Int) :
    (st.addSum i a b).restrictions = updSum st.restrictions i a b := rfl

theorem setOccupied_squares_eq (st : BoardState) (i : Nat) (v : Option Nat) :
    (st.setOccupied i v).squares =
      Function.update st.squares i { st.squares i with DominoAssigned := v } := rfl

theorem setAssignedFlag_dominoes_eq (st : BoardState) (i : Nat) (b : Bool) :
    (st.setAssignedFlag i b).dominoes =
      Function.update st.dominoes i { st.dominoes i with IsAssigned := b } := rfl

theorem Assign_squares (st : BoardState) (dId sId nId : Nat) :
    (Domino.Assign st dId sId nId).1.squares =
      ((st.setOccupied sId (some dId)).setOccupied nId (some dId)).squares := by
  unfold Domino.Assign
  simp only [apply_ite BoardState.squares, bindArg_squares, addSum_squares,
    setAssignedFlag_squares, ite_self]

theorem Assign_dominoes (st : BoardState) (dId sId nId : Nat) :
    (Domino.Assign st dId sId nId).1.dominoes =
      Function.update st.dominoes dId { st.dominoes dId with IsAssigned := true } := by
  unfold Domino.Assign
  simp only [setAssignedFlag_dominoes_eq, apply_ite BoardState.dominoes, bindArg_dominoes,
    addSum_dominoes, setOccupied_dominoes, ite_self]

theorem Assign_restrictions (st : BoardState) (dId sId nId : Nat) :
    (Domino.Assign st dId sId nId).1.restrictions =
      assignR st.restrictions (st.squares sId).RestrictionId (st.squares nId).RestrictionId
        (st.dominoes dId).Square1Value (st.dominoes dId).Square2Value := by
  unfold Domino.Assign assignR
  simp only [setAssignedFlag_restrictions, apply_ite BoardState.restrictions,
    setOccupied_restrictions, setOccupied_dominoes, bindArg_restrictions_eq,
    addSum_restrictions_eq, ite_self]

theorem Assign_snd (st : BoardState) (dId sId nId : Nat) :
    (Domino.Assign st dId sId nId).2 =
      UndoRecord.assignUndo sId nId dId
        (decide (eqBlank st.restrictions (st.squares sId).RestrictionId))
        (decide (eqBlank
          (if eqBlank st.restrictions (st.squares sId).RestrictionId then
            updArg st.restrictions (st.squares sId).RestrictionId (st.dominoes dId).Square1Value
          else st.restrictions) (st.squares nId).RestrictionId)) := by
  unfold Domino.Assign
  simp only [setOccupied_restrictions, apply_ite BoardState.restrictions, bindArg_restrictions_eq]

theorem applyUndo_assign_squares (st : BoardState) (sId nId dId : Nat) (wb nwb : Bool) :
    (applyUndo st (UndoRecord.assignUndo sId nId dId wb nwb)).squares =
      ((st.setOccupied sId none).setOccupied nId none).squares := by
  unfold applyUndo
  simp only [apply_ite BoardState.squares, bindArg_squares, addSum_squares,
    setAssignedFlag_squares, ite_self, setOccupied_squares_eq]

theorem applyUndo_assign_dominoes (st : BoardState) (sId nId dId : Nat) (wb nwb : Bool) :
    (applyUndo st (UndoRecord.assignUndo sId nId dId wb nwb)).dominoes =
      Function.update st.dominoes dId { st.dominoes dId with IsAssigned := false } := by
  unfold applyUndo
  simp only [apply_ite BoardState.dominoes, bindArg_dominoes, addSum_dominoes,
    setOccupied_dominoes, ite_self, setAssignedFlag_dominoes_eq]

theorem applyUndo_assign_restrictions (st : BoardState) (sId nId dId : Nat) (wb nwb : Bool) :
    (applyUndo st (UndoRecord.assignUndo sId nId dId wb nwb)).restrictions =
      undoR st.restrictions (st.squares sId).RestrictionId (st.squares nId).RestrictionId
        (st.dominoes dId).Square1Value (st.dominoes dId).Square2Value wb nwb := by
  unfold applyUndo undoR
  simp only [apply_ite BoardState.restrictions, setOccupied_restrictions,
    setAssignedFlag_restrictions, bindArg_restrictions_eq, addSum_restrictions_eq,
    apply_ite BoardState.dominoes, bindArg_dominoes, addSum_dominoes, setOccupied_dominoes,
    setAssignedFlag_dominoes_eq, Function.update_same, ite_self]

theorem assign_undo_restores (st : BoardState) (dId sId nId : Nat)
    (hs : (st.squares sId).DominoAssigned = none)
    (hn : (st.squares nId).DominoAssigned = none)
    (hd : (st.dominoes dId).IsAssigned = false) :
    applyUndo (Domino.Assign st dId sId nId).1 (Domino.Assign st dId sId nId).2 = st := by
  rw [Assign_snd]
  apply BoardState.ext2
  · rw [applyUndo_assign_squares]
    funext j
    simp only [setOccupied_squares_eq, Function.update_apply, Assign_squares]
    by_cases hj1 : j = sId <;> by_cases hj2 : j = nId <;>
      simp_all [clearOccupied]
  · rw [applyUndo_assign_restrictions]
    have e1 : ((Domino.Assign st dId sId nId).1.squares sId).RestrictionId =
        (st.squares sId).RestrictionId := by
      rw [Assign_squares]
      by_cases h : sId = nId
      · subst h; simp [setOccupied_squares_eq, Function.update_same]
      · simp [setOccupied_squares_eq, Function.update_apply, h]
    have e2 : ((Domino.Assign st dId sId nId).1.squares nId).RestrictionId =
        (st.squares nId).RestrictionId := by
      rw [Assign_squares]
      by_cases h : nId = sId
      · subst h; simp [setOccupied_squares_eq, Function.update_same]
      · simp [setOccupied_squares_eq, Function.update_apply, h]
    have e3 : ((Domino.Assign st dId sId nId).1.dominoes dId).Square1Value =
        (st.dominoes dId).Square1Value := by
      rw [Assign_dominoes]
      simp [Function.update_apply]
    have e4 : ((Domino.Assign st dId sId nId).1.dominoes dId).Square2Value =
        (st.dominoes dId).Square2Value := by
      rw [Assign_dominoes]
      simp [Function.update_apply]
    rw [e1, e2, e3, e4, Assign_restrictions]
    exact undoR_assignR st.restrictions _ _ _ _
  · rw [applyUndo_assign_dominoes]
    funext j
    simp only [Assign_dominoes, Function.update_apply]
    by_cases hj : j = dId <;> simp_all [clearAssigned]

theorem Domino.fieldExtD (a b : Domino) (h1 : a.Square1Value = b.Square1Value)
    (h2 : a.Square2Value = b.Square2Value) (h3 : a.IsAssigned = b.IsAssigned)
    (h4 : a.rotation = b.rotation) : a = b := by
  cases a; cases b; simp_all

theorem rotate_roundtrip (st : BoardState) (i : Nat) :
    applyUndo (st.setDomino i ((st.dominoes i).Rotate90DegreesClockwise))
      (UndoRecord.rotateUndo i) = st := by
  unfold applyUndo
  apply BoardState.ext2
  · rfl
  · rfl
  · funext j
    unfold BoardState.setDomino
    simp only [Function.update_apply]
    by_cases hj : j = i
    · subst hj
      simp only [if_pos rfl]
      apply Domino.fieldExtD <;>
        simp [Domino.Rotate90DegreesClockwise, Domino.Rotate90DegreesCounterClockwise]
    · simp [hj]

theorem swap_roundtrip (st : BoardState) (i : Nat) :
    applyUndo (st.setDomino i ((st.dominoes i).Swap)) (UndoRecord.swapUndo i) = st := by
  unfold applyUndo
  apply BoardState.ext2
  · rfl
  · rfl
  · funext j
    unfold BoardState.setDomino
    simp only [Function.update_apply]
    by_cases hj : j = i
    · subst hj
      simp only [if_pos rfl]
      apply Domino.fieldExtD <;> simp [Domino.Swap]
    · simp [hj]

theorem Pop_concat (st : BoardState) (q : MoveQueue) (mv : Move) :
    MoveQueue.Pop st (q ++ [mv]) = (some mv, applyUndo st mv.Undo, q) := by
  unfold MoveQueue.Pop
  rw [List.getLast?_concat]
  simp [List.dropLast_concat]

theorem tryAssign_some (st : BoardState) (dId sId : Nat) (res : BoardState × UndoRecord)
    (h : Domino.TryAssign st dId sId = some res) :
    ∃ nId, neighborForRotation st dId sId = some nId ∧
      (st.squares nId).DominoAssigned = none ∧
      res = Domino.Assign st dId sId nId := by
  unfold Domino.TryAssign at h
  cases hnb : neighborForRotation st dId sId with
  | none => rw [hnb] at h; simp at h
  | some nId =>
    rw [hnb] at h
    dsimp only at h
    refine ⟨nId, rfl, ?_⟩
    split_ifs at h <;> simp_all

/-- C1: undo round-trip.  In any state in which the move's square is open
and its domino unassigned (both hold in every state the search pushes moves
from, since squares come from pickEmptySquare and dominoes from the
unassigned-candidate filter), a successful TryPush of any move kind
followed by Pop restores the whole board state and the whole Move Log to
their exact pre-push values. -/
theorem tryPush_pop_roundtrip (st : BoardState) (q : MoveQueue) (m : MoveSpec)
    (st1 : BoardState) (q1 : MoveQueue)
    (hs : (st.squares m.GridSquare).DominoAssigned = none)
    (hd : (st.dominoes m.Domino).IsAssigned = false)
    (hpush : MoveQueue.TryPush st q m = (true, st1, q1)) :
    (MoveQueue.Pop st1 q1).2.1 = st ∧ (MoveQueue.Pop st1 q1).2.2 = q := by
  unfold MoveQueue.TryPush at hpush
  cases hm : m.MoveTy with
  | rotate =>
    rw [hm] at hpush
    simp only [Prod.mk.injEq, true_and] at hpush
    obtain ⟨hst1, hq1⟩ := hpush
    subst hst1; subst hq1
    rw [Pop_concat]
    exact ⟨rotate_roundtrip st m.Domino, rfl⟩
  | swap =>
    rw [hm] at hpush
    simp only [Prod.mk.injEq, true_and] at hpush
    obtain ⟨hst1, hq1⟩ := hpush
    subst hst1; subst hq1
    rw [Pop_concat]
    exact ⟨swap_roundtrip st m.Domino, rfl⟩
  | assign =>
    rw [hm] at hpush
    cases hTA : Domino.TryAssign st m.Domino m.GridSquare with
    | none => rw [hTA] at hpush; simp at hpush
    | some res =>
      rw [hTA] at hpush
      obtain ⟨nId, hnb, hn, hres⟩ := tryAssign_some st m.Domino m.GridSquare res hTA
      cases res with
      | mk rst ru =>
        dsimp only at hpush
        simp only [Prod.mk.injEq, true_and] at hpush
        obtain ⟨hst1, hq1⟩ := hpush
        subst hst1; subst hq1
        rw [Pop_concat]
        refine ⟨?_, rfl⟩
        have h1 : rst = (Domino.Assign st m.Domino m.GridSquare nId).1 := by rw [← hres]
        have h2 : ru = (Domino.Assign st m.Domino m.GridSquare nId).2 := by rw [← hres]
        dsimp only
        rw [h2, h1]
        exact assign_undo_restores st m.Domino m.GridSquare nId hs hn hd

/-- C1 witness: the round-trip theorem applied to a concrete successful
assign push on the shared-equal board. -/
theorem tryPush_pop_roundtrip_witness :
    (MoveQueue.Pop c1Push.2.1 c1Push.2.2).2.1 = sharedEqBoard ∧
    (MoveQueue.Pop c1Push.2.1 c1Push.2.2).2.2 = ([] : MoveQueue) :=
  tryPush_pop_roundtrip sharedEqBoard [] c1Move c1Push.2.1 c1Push.2.2 rfl rfl rfl

/-- C5: assign-push atomicity.  For an assign move, TryPush fails exactly
when Domino.TryAssign fails, and in that case returns false leaving the
board state and the Move Log exactly as before; it appends the move (with
the stored undo) and returns true exactly when TryAssign succeeds.
TryAssign fails precisely when the neighbor in the rotation direction is
missing, or occupied, or the applicable constraint check fails (the
source's self-comparison in the shared equal branch can never fail and
contributes no case). -/
theorem tryPush_assign_atomic (st : BoardState) (q : MoveQueue) (m : MoveSpec)
    (hm : m.MoveTy = MoveType.assign) :
    (Domino.TryAssign st m.Domino m.GridSquare = none →
        MoveQueue.TryPush st q m = (false, st, q)) ∧
    (∀ st1 u, Domino.TryAssign st m.Domino m.GridSquare = some (st1, u) →
        MoveQueue.TryPush st q m =
          (true, st1, q ++ [{ Domino := m.Domino, GridSquare := m.GridSquare,
                              MoveTy := m.MoveTy, Undo := u, Pruned := false }])) ∧
    (Domino.TryAssign st m.Domino m.GridSquare = none ↔
      (neighborForRotation st m.Domino m.GridSquare = none ∨
       ∃ nId, neighborForRotation st m.Domino m.GridSquare = some nId ∧
         ((st.squares nId).DominoAssigned ≠ none ∨
          ((st.squares m.GridSquare).RestrictionId = (st.squares nId).RestrictionId ∧
           (((st.restrictions (st.squares m.GridSquare).RestrictionId).RType =
                RestrictionType.equal ∧
              (st.restrictions (st.squares m.GridSquare).RestrictionId).Check
                (st.dominoes m.Domino).Square1Value 1 = false) ∨
            ((st.restrictions (st.squares m.GridSquare).RestrictionId).RType =
                RestrictionType.sumsTo ∧
              (st.restrictions (st.squares m.GridSquare).RestrictionId).Check
                ((st.dominoes m.Domino).Square1Value + (st.dominoes m.Domino).Square2Value)
                2 = false))) ∨
          ((st.squares m.GridSquare).RestrictionId ≠ (st.squares nId).RestrictionId ∧
            (st.restrictions (st.squares nId).RestrictionId).Check
              (st.dominoes m.Domino).Square2Value 1 = false)))) := by
  refine ⟨?_, ?_, ?_⟩
  · intro h
    unfold MoveQueue.TryPush
    rw [hm]
    dsimp only
    rw [h]
  · intro st1 u h
    unfold MoveQueue.TryPush
    rw [hm]
    dsimp only
    rw [h]
  · unfold Domino.TryAssign
    cases hnb : neighborForRotation st m.Domino m.GridSquare with
    | none => simp
    | some nId =>
      dsimp only
      by_cases hocc : (st.squares nId).DominoAssigned = none
      · by_cases hshare :
            (st.squares m.GridSquare).RestrictionId = (st.squares nId).RestrictionId
        · by_cases hEq : (st.restrictions (st.squares m.GridSquare).RestrictionId).RType =
              RestrictionType.equal
          · by_cases hC1 : (st.restrictions (st.squares m.GridSquare).RestrictionId).Check
                (st.dominoes m.Domino).Square1Value 1 = true <;> simp_all
          · by_cases hSum : (st.restrictions (st.squares m.GridSquare).RestrictionId).RType =
                RestrictionType.sumsTo
            · by_cases hC2 : (st.restrictions (st.squares m.GridSquare).RestrictionId).Check
                  ((st.dominoes m.Domino).Square1Value + (st.dominoes m.Domino).Square2Value)
                  2 = true <;> simp_all
            · simp_all
        · by_cases hC3 : (st.restrictions (st.squares nId).RestrictionId).Check
              (st.dominoes m.Domino).Square2Value 1 = true <;> simp_all
      · simp_all

/-- C5 witness: the atomicity theorem applied to the concrete assign move on
the shared-equal board, where TryAssign succeeds. -/
theorem tryPush_assign_atomic_witness :
    MoveQueue.TryPush sharedEqBoard [] c1Move =
      (true, (Domino.Assign sharedEqBoard 0 0 1).1,
        [{ Domino := 0, GridSquare := 0, MoveTy := MoveType.assign,
           Undo := (Domino.Assign sharedEqBoard 0 0 1).2, Pruned := false }]) :=
  (tryPush_assign_atomic sharedEqBoard [] c1Move rfl).2.1
    (Domino.Assign sharedEqBoard 0 0 1).1 (Domino.Assign sharedEqBoard 0 0 1).2 rfl

theorem find?_congr_pred {α : Type} (l : List α) (p q : α → Bool)
    (h : ∀ x ∈ l, p x = q x) : l.find? p = l.find? q := by
  induction l with
  | nil => rfl
  | cons a t ih =>
    have ha := h a (List.mem_cons_self a t)
    by_cases hpa : p a = true
    · rw [List.find?_cons_of_pos _ hpa, List.find?_cons_of_pos _ (ha ▸ hpa)]
    · rw [List.find?_cons_of_neg _ hpa, List.find?_cons_of_neg _ (ha ▸ hpa)]
      exact ih (fun x hx => h x (List.mem_cons_of_mem a hx))

/-- C6 (amended): with at least one open square, pickEmptySquare returns an
open square of minimal priority class — where class 1 is a sum restriction
whose region size (NumSquaresAffected) is exactly 1, class 2 a bound equal
restriction, class 3 a gt or lt restriction, class 4 anything else — and
among the open squares of that class it returns the first in row-major
scan order. -/
theorem pickEmptySquare_priority (grid : List (List (Option Nat))) (st : BoardState)
    (h : blankSquaresList grid st ≠ []) :
    ∃ s, pickEmptySquare grid st = some s ∧
      (∀ t ∈ blankSquaresList grid st, heuristicClass st s ≤ heuristicClass st t) ∧
      (blankSquaresList grid st).find?
        (fun t => heuristicClass st t == heuristicClass st s) = some s := by
  unfold pickEmptySquare
  dsimp only
  cases hf1 : (blankSquaresList grid st).find? (isSumOne st) with
  | some s =>
    have hcs : heuristicClass st s = 1 := by
      unfold heuristicClass
      rw [if_pos (List.find?_some hf1)]
    refine ⟨s, by simp only [hf1], ?_, ?_⟩
    · intro t ht
      rw [hcs]
      unfold heuristicClass
      split_ifs <;> omega
    · rw [hcs, find?_congr_pred _ _ (isSumOne st) ?_, hf1]
      intro x _
      unfold heuristicClass
      split_ifs with h1 h2 h3 <;> simp_all
  | none =>
    have hall1 : ∀ t ∈ blankSquaresList grid st, isSumOne st t = false := by
      intro t ht
      have := List.find?_eq_none.mp hf1 t ht
      simpa using this
    cases hf2 : (blankSquaresList grid st).find? (isBoundEqual st) with
    | some s =>
      have hmem := List.mem_of_find?_eq_some hf2
      have hcs : heuristicClass st s = 2 := by
        unfold heuristicClass
        rw [if_neg (by simp [hall1 s hmem]), if_pos (List.find?_some hf2)]
      refine ⟨s, by simp only [hf1, hf2], ?_, ?_⟩
      · intro t ht
        rw [hcs]
        unfold heuristicClass
        split_ifs with h1 h2 h3
        · exact absurd h1 (by simp [hall1 t ht])
        · omega
        · omega
        · omega
      · rw [hcs, find?_congr_pred _ _ (isBoundEqual st) ?_, hf2]
        intro x hx
        unfold heuristicClass
        split_ifs with h1 h2 h3 <;> simp_all [hall1 x hx]
    | none =>
      have hall2 : ∀ t ∈ blankSquaresList grid st, isBoundEqual st t = false := by
        intro t ht
        have := List.find?_eq_none.mp hf2 t ht
        simpa using this
      cases hf3 : (blankSquaresList grid st).find? (isGtLt st) with
      | some s =>
        have hmem := List.mem_of_find?_eq_some hf3
        have hcs : heuristicClass st s = 3 := by
          unfold heuristicClass
          rw [if_neg (by simp [hall1 s hmem]), if_neg (by simp [hall2 s hmem]),
            if_pos (List.find?_some hf3)]
        refine ⟨s, by simp only [hf1, hf2, hf3], ?_, ?_⟩
        · intro t ht
          rw [hcs]
          unfold heuristicClass
          split_ifs with h1 h2 h3
          · exact absurd h1 (by simp [hall1 t ht])
          · exact absurd h2 (by simp [hall2 t ht])
          · omega
          · omega
        · rw [hcs, find?_congr_pred _ _ (isGtLt st) ?_, hf3]
          intro x hx
          unfold heuristicClass
          split_ifs with h1 h2 h3 <;> simp_all [hall1 x hx, hall2 x hx]
      | none =>
        have hall3 : ∀ t ∈ blankSquaresList grid st, isGtLt st t = false := by
          intro t ht
          have := List.find?_eq_none.mp hf3 t ht
          simpa using this
        obtain ⟨b, bs, hbs⟩ := List.exists_cons_of_ne_nil h
        have hmemb : b ∈ blankSquaresList grid st := by
          rw [hbs]; exact List.mem_cons_self b bs
        have hcb : heuristicClass st b = 4 := by
          unfold heuristicClass
          rw [if_neg (by simp [hall1 b hmemb]), if_neg (by simp [hall2 b hmemb]),
            if_neg (by simp [hall3 b hmemb])]
        have hone : ∀ x ∈ blankSquaresList grid st,
            (heuristicClass st x == 4) = true := by
          intro x hx
          unfold heuristicClass
          split_ifs with h1 h2 h3 <;> simp_all [hall1 x hx, hall2 x hx, hall3 x hx]
        refine ⟨b, by simp only [hf1, hf2, hf3]; rw [hbs]; rfl, ?_, ?_⟩
        · intro t ht
          rw [hcb]
          unfold heuristicClass
          split_ifs with h1 h2 h3
          · exact absurd h1 (by simp [hall1 t ht])
          · exact absurd h2 (by simp [hall2 t ht])
          · exact absurd h3 (by simp [hall3 t ht])
          · omega
        · rw [hcb]
          have hgoal : List.find? (fun t => heuristicClass st t == 4) (b :: bs) = some b :=
            List.find?_cons_of_pos bs (hone b hmemb)
          rw [hbs]
          exact hgoal

/-- C6 counterexample: the sum region in arena slot 0 covers exactly one
remaining open square (square 1, the scan-first open square), yet
pickEmptySquare skips it and returns square 2 from the bound-equal class:
the code tests the static region size NumSquaresAffected, not the number
of remaining squares. -/
theorem pickEmptySquare_ignores_remaining_count :
    pickEmptySquare c6Grid c6Board = some 2 ∧
    (c6Board.restrictions 0).RType = RestrictionType.sumsTo ∧
    openSquaresInRegion c6Grid c6Board 0 = 1 ∧
    (c6Board.squares 1).DominoAssigned = none ∧
    (c6Board.squares 1).RestrictionId = 0 ∧
    (2 : Nat) ≠ 1 := by
  refine ⟨rfl, rfl, rfl, rfl, rfl, by decide⟩

/-- C6 witness: the amended priority theorem applied to the counterexample
board, whose open-square list is nonempty. -/
theorem pickEmptySquare_priority_witness :
    ∃ s, pickEmptySquare c6Grid c6Board = some s ∧
      (∀ t ∈ blankSquaresList c6Grid c6Board,
        heuristicClass c6Board s ≤ heuristicClass c6Board t) ∧
      (blankSquaresList c6Grid c6Board).find?
        (fun t => heuristicClass c6Board t == heuristicClass c6Board s) = some s :=
  pickEmptySquare_priority c6Grid c6Board (by decide)

/-- C8 evidence: on a log that ends with its four consecutive rotates, the
code reads one entry past the end and panics instead of marking them; and
on the interleaved log, which contains no four consecutive rotates, it
nevertheless marks entry 1 - a swap of a different domino - as pruned. -/
theorem pruneUselessMoves_bug :
    MoveQueue.PruneUselessMoves fourRotatesQueue = none ∧
    ((MoveQueue.PruneUselessMoves interleavedQueue).map
      (fun q1 => (q1.get? 1).map Move.Pruned)) = some (some true) ∧
    (interleavedQueue.get? 1).map Move.MoveTy = some MoveType.swap := by
  refine ⟨rfl, rfl, rfl⟩

/-- C2 evidence: placing the only domino succeeds and yields a state with
no open square and no unassigned domino - the exact state the claim is
about - yet pickEmptySquare returns none there (the Go code indexes
blankSquares[0] on an empty slice and panics), the success guard
len(dominoes) == 0 is false because the domino slice is never shrunk, and
the whole search on this solvable puzzle returns none (panic) instead of
success. -/
theorem search_panics_at_success_state :
    (MoveQueue.TryPush c2Board [] c2AssignMove).1 = true ∧
    pickEmptySquare c2Grid (MoveQueue.TryPush c2Board [] c2AssignMove).2.1 = none ∧
    DominoSet.HasUnassigned c2Ds (MoveQueue.TryPush c2Board [] c2AssignMove).2.1 = false ∧
    c2Ds.isEmpty = false ∧
    pickEmptySquare c2Grid c2Board = some 0 ∧
    makeNextMove 100 c2Grid c2Ds c2Board [] 0 = none := by
  refine ⟨rfl, rfl, rfl, rfl, rfl, rfl⟩

/-- C9: determinism of the search.  The embedded search is a pure function
of the grid graph, the candidate ordering of the domino set and the board
state, with no other inputs (the source has no randomness, no map
iteration and no concurrency), so two runs from identical inputs produce
identical results: the same success flag, the same final board and the
same Move Log entry for entry. -/
theorem search_deterministic (fuel : Nat) (grid : List (List (Option Nat)))
    (ds : DominoSet) (st : BoardState) (q : MoveQueue) (sqId : Nat)
    (r1 r2 : Option (Bool × BoardState × MoveQueue))
    (h1 : r1 = makeNextMove fuel grid ds st q sqId)
    (h2 : r2 = makeNextMove fuel grid ds st q sqId) :
    r1 = r2 := by
  rw [h1, h2]

/-- C9 witness: two runs on the concrete C2 puzzle agree. -/
theorem search_deterministic_witness :
    makeNextMove 100 c2Grid c2Ds c2Board [] 0 = makeNextMove 100 c2Grid c2Ds c2Board [] 0 :=
  search_deterministic 100 c2Grid c2Ds c2Board [] 0 _ _ rfl rfl
